import Mathlib

/-!
Shallow embedding of the core logic of `moporodo.py` (a Pomodoro
focus-enforcement application) and proofs about the claims of its
specification.

Modelling conventions:
* Times are natural numbers (seconds unless stated otherwise); each call
  of the wall clock inside the program is an entry of an abstract
  monotone time stream supplied as input, so the time elapsing between
  two program points is arbitrary, exactly as with `time.time()`.
* The window query collaborator (`pywinctl`) is modelled as an input
  stream `Option String`: `none` is a failed query or no active window.
* The cancellation event `stop_monitoring` (a `threading.Event`) is
  modelled as a Boolean stream indexed by the successive points at which
  the program calls `is_set()`; monotonicity of the event (once set it
  stays set during a run) is a hypothesis of the theorems that need it.
* Fallible collaborator calls (window lookup, `subprocess.Popen`,
  `process.terminate`) take their outcome as an explicit input.
-/

namespace Moporodo

/-- Whether the character list `needle` occurs at the head of `hay`
(model of a Python substring probe at one position). -/
def leadMatch : List Char → List Char → Bool
  | [], _ => true
  | _ :: _, [] => false
  | a :: as, b :: bs => a == b && leadMatch as bs

/-- Whether `needle` occurs contiguously inside `hay`: the model of the
Python substring operator `needle in hay` on strings. -/
def hasSub (hay needle : List Char) : Bool :=
  match hay with
  | [] => needle.isEmpty
  | _ :: t => leadMatch needle hay || hasSub t needle

/-- Case-insensitive substring containment,
Python `needle.lower() in hay.lower()`. -/
def titleHas (hay needle : String) : Bool :=
  hasSub (hay.toList.map Char.toLower) (needle.toList.map Char.toLower)

/-- Condition of line 127 of `moporodo.py`:
`if active_window_title and target_title.lower() not in active_window_title.lower()`.
The tick is handled by the focus-lost branch exactly when this is `true`;
`none` models a failed query (`_get_active_window_title` returned `None`),
and the empty string is falsy in Python, so both select the other branch. -/
def focus_lost (target : String) (activeTitle : Option String) : Bool :=
  match activeTitle with
  | none => false
  | some t => !t.isEmpty && !titleHas t target

/-- State of the sound subsystem: the `sound_playing` flag and the keys of
the `active_sound_threads` dictionary (insertion order). -/
structure SoundSt where
  soundPlaying : Bool
  activeStages : List Nat
deriving DecidableEq

/-- Lines 177-182: for each stage in `0..alert_stage`, start a thread for
it unless one is already tracked. -/
def ensureStages (l : List Nat) (alertStage : Nat) : List Nat :=
  (List.range (alertStage + 1)).foldl
    (fun acc st => if st ∈ acc then acc else acc ++ [st]) l

/-- Model of `_manage_alert_sounds` (lines 172-183): set `sound_playing`,
then ensure a sound thread exists for every stage up to `alert_stage`. -/
def manage_alert_sounds (alertStage : Nat) (s : SoundSt) : SoundSt :=
  { soundPlaying := true, activeStages := ensureStages s.activeStages alertStage }

/-- Model of `_stop_all_sounds` (lines 185-198): early return if
`sound_playing` is already false; otherwise clear the flag, join each
thread with a 0.2 s timeout, and clear the dictionary unconditionally. -/
def stop_all_sounds (s : SoundSt) : SoundSt :=
  if !s.soundPlaying then s
  else { soundPlaying := false, activeStages := [] }

/-- Time, in tenths of a second after the stop flag is cleared, at which a
sound-player thread that is blocked inside `playsound(sound_path, block=True)`
with `remaining` tenths of playback left exits: playback is not
interruptible, and the thread only observes `sound_playing = False` at the
between-plays check (lines 156 and 168), i.e. after `remaining`. -/
def channelExitTime (remaining : Nat) : Nat := remaining

/-- Model of `thread.join(timeout=0.2)` on line 195, in tenths of a second:
the join returns after the thread exits or after the 0.2 s timeout,
whichever comes first. -/
def joinWait (exitTime : Nat) : Nat := min exitTime 2

/-- Whether a channel mid-play with `remaining` tenths of a second of
blocking playback left is still producing audio when `_stop_all_sounds`
returns: true exactly when the thread outlives the bounded join. -/
def channelAliveAfterStopAll (remaining : Nat) : Bool :=
  decide (joinWait (channelExitTime remaining) < channelExitTime remaining)

/-- Inputs of one `_monitor_focus` call: the target title and duration,
the start time `t0` (line 119), and per-tick input streams: the window
query result, the cancellation flag at the loop-condition check, the
clock at the loop-condition check (`tq`, line 124) and the clock during
the tick body (`tb`, lines 129/132/134/146). -/
structure MonCfg where
  target : String
  duration : Nat
  t0 : Nat
  title : Nat → Option String
  cancel : Nat → Bool
  tq : Nat → Nat
  tb : Nat → Nat

/-- Mutable state read and written by `_monitor_focus`:
`alert_stage`, `last_focus_lost_time`, the sound subsystem state, and the
published `time_remaining` (an integer: line 146 computes it without any
clamping at zero). -/
structure MonState where
  alertStage : Nat
  lastFocusLost : Option Nat
  snd : SoundSt
  timeRemaining : Int
deriving DecidableEq

/-- Lines 120-122 of `_monitor_focus`: on entry `time_remaining` is set to
the duration, `last_focus_lost_time` to `None` and `alert_stage` to 0;
the sound state is carried over unchanged. -/
def monitor_init (cfg : MonCfg) (s : MonState) : MonState :=
  { alertStage := 0, lastFocusLost := none, snd := s.snd,
    timeRemaining := (cfg.duration : Int) }

/-- Body of one iteration of the `_monitor_focus` loop (lines 125-146). -/
def monitor_tick (cfg : MonCfg) (k : Nat) (s : MonState) : MonState :=
  let s1 :=
    if focus_lost cfg.target (cfg.title k) then
      -- lines 128-129: set last_focus_lost_time if unset
      let mark := s.lastFocusLost.getD (cfg.tb k)
      -- line 132: escalate after 10 s of continuous loss, below stage 5
      let esc : Bool := decide (mark + 10 ≤ cfg.tb k) && decide (s.alertStage < 5)
      let stage := if esc then s.alertStage + 1 else s.alertStage
      let mark2 := if esc then cfg.tb k else mark
      { s with alertStage := stage, lastFocusLost := some mark2,
               snd := manage_alert_sounds stage s.snd }
    else
      -- lines 141-144: stop sounds if playing, reset stage and timestamp
      let snd := if s.snd.soundPlaying then stop_all_sounds s.snd else s.snd
      { s with alertStage := 0, lastFocusLost := none, snd := snd }
  -- line 146: publish time_remaining = int(duration - (now - start))
  { s1 with timeRemaining := (cfg.duration : Int) - ((cfg.tb k : Int) - (cfg.t0 : Int)) }

/-- Loop condition of line 124 at tick `k`:
`(time.time() - start_time) < duration_seconds and not self.stop_monitoring.is_set()`. -/
def monGuard (cfg : MonCfg) (k : Nat) : Bool :=
  decide (cfg.tq k < cfg.t0 + cfg.duration) && !cfg.cancel k

/-- State of `_monitor_focus` after `k` loop iterations starting from the
state produced by `monitor_init`; once the guard fails the state is
frozen (the loop has exited). -/
def monSteps (cfg : MonCfg) (s0 : MonState) : Nat → MonState
  | 0 => s0
  | k + 1 =>
      if monGuard cfg k then monitor_tick cfg k (monSteps cfg s0 k)
      else monSteps cfg s0 k

/-- State returned by `_monitor_focus` when the loop exits after tick `k`:
line 149 calls `_stop_all_sounds` unconditionally. -/
def monitor_result (cfg : MonCfg) (s0 : MonState) (k : Nat) : MonState :=
  let s := monSteps cfg s0 k
  { s with snd := stop_all_sounds s.snd }

/-- Observable side effects on external collaborators issued by the
application- and process-management code. -/
inductive ProcAction
  | activateWindow (title : String)
  | spawn (cmd : List String)
  | terminate (pid : Nat)
  | kill (pid : Nat)
deriving DecidableEq

/-- The two tracked process handles (`self.game_process`,
`self.study_process`), each an optional pid. -/
structure ProcState where
  gameProcess : Option Nat
  studyProcess : Option Nat
deriving DecidableEq

/-- Line 226: `"game" in app_title.lower()` decides under which of the two
handles a newly spawned process is recorded. -/
def isGameKind (appTitle : String) : Bool :=
  titleHas appTitle "game"

/-- Python `app_path.split()` (line 224): split on whitespace, dropping
empty pieces. -/
def splitPath (appPath : String) : List String :=
  (appPath.splitOn " ").filter (fun p => !p.isEmpty)

/-- Model of `_start_application` (lines 212-233). Inputs supplied for the
collaborator outcomes: `windowsFound` is `none` when `getWindowsWithTitle`
raised, `some b` when it returned a list, nonempty iff `b`; `spawned` is
`none` when `Popen` raised (the error is reported and the tracked handles
are left unchanged), `some pid` on success. Returns the new handle state
and the list of actions performed. When a window is found it is activated
and nothing is spawned; on a successful spawn the handle of the matching
kind is overwritten with the new pid — no terminate action is issued for
a previously tracked handle. -/
def start_application (appPath appTitle : String)
    (windowsFound : Option Bool) (spawned : Option Nat)
    (s : ProcState) : ProcState × List ProcAction :=
  match windowsFound with
  | some true => (s, [ProcAction.activateWindow appTitle])
  | _ =>
    match spawned with
    | none => (s, [])
    | some pid =>
      if isGameKind appTitle then
        ({ s with gameProcess := some pid }, [ProcAction.spawn (splitPath appPath)])
      else
        ({ s with studyProcess := some pid }, [ProcAction.spawn (splitPath appPath)])

/-- Outcome of the graceful-termination attempt inside
`_terminate_process`: `terminate(); wait(timeout=3)` succeeded, timed out
(`TimeoutExpired`, answered by `kill()`), or raised another exception
(caught and reported). -/
inductive TermOutcome
  | ok
  | timedOut
  | errored
deriving DecidableEq

/-- Model of `_terminate_process` (lines 235-245): with no process it is a
no-op performing no action; otherwise it terminates, escalating to a kill
on timeout and swallowing errors; every path returns `None`. -/
def terminate_process (p : Option Nat) (out : TermOutcome) :
    Option Nat × List ProcAction :=
  match p, out with
  | none, _ => (none, [])
  | some pid, TermOutcome.ok => (none, [ProcAction.terminate pid])
  | some pid, TermOutcome.timedOut =>
      (none, [ProcAction.terminate pid, ProcAction.kill pid])
  | some pid, TermOutcome.errored => (none, [ProcAction.terminate pid])

/-- Controller-level state touched by `start_pomodoro_session` and
`stop_pomodoro_session`. -/
structure CtrlState where
  timerRunning : Bool
  stopMonitoring : Bool
  snd : SoundSt
  procs : ProcState
deriving DecidableEq

/-- Result of the `start_pomodoro_session` command (lines 249-264). -/
inductive StartOutcome
  | alreadyRunning
  | configMissing
  | started
deriving DecidableEq

/-- Model of `start_pomodoro_session` (lines 249-264): warn and return if
a session is already running (line 251); after reloading the
configuration, show the `Configuration Missing` error and return if
`game_path` is empty/falsy (line 256; the key is present, as guaranteed
by any configuration saved through the configuration window); otherwise
start the worker thread running `run_pomodoro_flow`. -/
def start_pomodoro_session (timerRunning : Bool) (gamePath : String) : StartOutcome :=
  if timerRunning then StartOutcome.alreadyRunning
  else if gamePath.isEmpty then StartOutcome.configMissing
  else StartOutcome.started

/-- Model of `stop_pomodoro_session` (lines 266-282): early return when no
timer is running (line 268) or when the user declines the confirmation
dialog (line 270); otherwise set the cancellation event, clear the
running flag, stop the sounds, and assign to both handle fields the
result of `_terminate_process` on them. -/
def stop_pomodoro_session (confirm : Bool) (outG outS : TermOutcome)
    (s : CtrlState) : CtrlState :=
  if !s.timerRunning then s
  else if !confirm then s
  else
    { timerRunning := false, stopMonitoring := true,
      snd := stop_all_sounds s.snd,
      procs :=
        { gameProcess := (terminate_process s.procs.gameProcess outG).1,
          studyProcess := (terminate_process s.procs.studyProcess outS).1 } }

/-- Kind of one scheduled phase. -/
inductive PhaseKind
  | distraction
  | shortFocus
  | longFocus
deriving DecidableEq

/-- One scheduled phase: its kind and its focus-watch duration in seconds. -/
structure PhaseRec where
  kind : PhaseKind
  duration : Nat
deriving DecidableEq

/-- The three configured durations (`self.durs`), in seconds. -/
structure Durations where
  game : Nat
  short_study : Nat
  long_study : Nat
deriving DecidableEq

/-- The game (distraction) phase of one repetition (lines 79-82). -/
def gamePhase (d : Durations) : PhaseRec :=
  { kind := PhaseKind.distraction, duration := d.game }

/-- The short study phase of one repetition (lines 86-89). -/
def shortStudyPhase (d : Durations) : PhaseRec :=
  { kind := PhaseKind.shortFocus, duration := d.short_study }

/-- The final long study phase (lines 93-96). -/
def longStudyPhase (d : Durations) : PhaseRec :=
  { kind := PhaseKind.longFocus, duration := d.long_study }

/-- Model of the guard at the top of `start_and_monitor` (line 110): the
phase is started (launch plus focus monitoring) only if the cancellation
event is not set at check index `k`. -/
def start_phase (cancel : Nat → Bool) (k : Nat) (p : PhaseRec) : List PhaseRec :=
  if cancel k then [] else [p]

/-- The `for i in range(4)` loop of `run_pomodoro_flow` (lines 76-89) with
`n` iterations left and `k` the index of the next `is_set()` check.
Each iteration consumes four checks: line 77 (break), line 110 for the
game phase, line 84 (break), line 110 for the study phase. Returns the
phases started and the next check index. -/
def flowLoop (cancel : Nat → Bool) (d : Durations) : Nat → Nat → List PhaseRec × Nat
  | 0, k => ([], k)
  | n + 1, k =>
    if cancel k then ([], k + 1)
    else
      let g := start_phase cancel (k + 1) (gamePhase d)
      if cancel (k + 2) then (g, k + 3)
      else
        let st := start_phase cancel (k + 3) (shortStudyPhase d)
        let r := flowLoop cancel d n (k + 4)
        (g ++ st ++ r.1, r.2)

/-- Model of `run_pomodoro_flow` (lines 70-100): the four-repetition loop,
then the long study phase guarded by the checks of lines 91 and 110, then
the `All Cycles Complete` report guarded by the check of line 98. Returns
the list of phases started and whether completion was reported. -/
def run_pomodoro_flow (cancel : Nat → Bool) (d : Durations) : List PhaseRec × Bool :=
  let r := flowLoop cancel d 4 0
  let after :=
    if cancel r.2 then (([] : List PhaseRec), r.2 + 1)
    else (start_phase cancel (r.2 + 1) (longStudyPhase d), r.2 + 2)
  (r.1 ++ after.1, !cancel after.2)

/-- The phase sequence of an uncancelled run: `n` repetitions of
game-then-study. -/
def loopSched (d : Durations) : Nat → List PhaseRec
  | 0 => []
  | n + 1 => gamePhase d :: shortStudyPhase d :: loopSched d n

/-- The full phase sequence of an uncancelled session: four repetitions of
distraction/short-focus, then the long focus phase. -/
def full_schedule (d : Durations) : List PhaseRec :=
  loopSched d 4 ++ [longStudyPhase d]

/-- A sound state is well formed when a cleared `sound_playing` flag means
no thread is tracked; this holds initially and is preserved by every
operation of the engine. -/
def wfSnd (s : SoundSt) : Prop :=
  s.soundPlaying = false → s.activeStages = []

theorem stop_all_sounds_noop (s : SoundSt) (h : s.soundPlaying = false) :
    stop_all_sounds s = s := by
  simp [stop_all_sounds, h]

theorem stop_all_sounds_playing (s : SoundSt) :
    (stop_all_sounds s).soundPlaying = false := by
  by_cases h : s.soundPlaying <;> simp [stop_all_sounds, h]

theorem stop_all_sounds_stages (s : SoundSt) (h : wfSnd s) :
    (stop_all_sounds s).activeStages = [] := by
  by_cases hp : s.soundPlaying
  · simp [stop_all_sounds, hp]
  · simp only [Bool.not_eq_true] at hp
    simp [stop_all_sounds, hp, h hp]

theorem monitor_tick_alertStage (cfg : MonCfg) (k : Nat) (s : MonState) :
    (monitor_tick cfg k s).alertStage =
      if focus_lost cfg.target (cfg.title k) then
        if s.lastFocusLost.getD (cfg.tb k) + 10 ≤ cfg.tb k ∧ s.alertStage < 5
        then s.alertStage + 1 else s.alertStage
      else 0 := by
  by_cases hf : focus_lost cfg.target (cfg.title k)
  · by_cases hc : s.lastFocusLost.getD (cfg.tb k) + 10 ≤ cfg.tb k ∧ s.alertStage < 5
    · simp [monitor_tick, hf, hc.1, hc.2]
    · rcases Decidable.not_and_iff_or_not.mp hc with h | h <;>
        simp [monitor_tick, hf, hc, h]
  · simp [monitor_tick, hf]

theorem monitor_tick_lastFocusLost (cfg : MonCfg) (k : Nat) (s : MonState) :
    (monitor_tick cfg k s).lastFocusLost =
      if focus_lost cfg.target (cfg.title k) then
        if s.lastFocusLost.getD (cfg.tb k) + 10 ≤ cfg.tb k ∧ s.alertStage < 5
        then some (cfg.tb k) else some (s.lastFocusLost.getD (cfg.tb k))
      else none := by
  by_cases hf : focus_lost cfg.target (cfg.title k)
  · by_cases hc : s.lastFocusLost.getD (cfg.tb k) + 10 ≤ cfg.tb k ∧ s.alertStage < 5
    · simp [monitor_tick, hf, hc.1, hc.2]
    · rcases Decidable.not_and_iff_or_not.mp hc with h | h <;>
        simp [monitor_tick, hf, hc, h]
  · simp [monitor_tick, hf]

theorem monitor_tick_snd (cfg : MonCfg) (k : Nat) (s : MonState) :
    (monitor_tick cfg k s).snd =
      if focus_lost cfg.target (cfg.title k) then
        manage_alert_sounds (monitor_tick cfg k s).alertStage s.snd
      else if s.snd.soundPlaying then stop_all_sounds s.snd else s.snd := by
  by_cases hf : focus_lost cfg.target (cfg.title k)
  · rw [monitor_tick_alertStage]
    by_cases hc : s.lastFocusLost.getD (cfg.tb k) + 10 ≤ cfg.tb k ∧ s.alertStage < 5
    · simp [monitor_tick, hf, hc.1, hc.2]
    · rcases Decidable.not_and_iff_or_not.mp hc with h | h <;>
        simp [monitor_tick, hf, hc, h]
  · simp [monitor_tick, hf]

theorem monitor_tick_timeRemaining (cfg : MonCfg) (k : Nat) (s : MonState) :
    (monitor_tick cfg k s).timeRemaining =
      (cfg.duration : Int) - ((cfg.tb k : Int) - (cfg.t0 : Int)) := rfl

theorem monitor_tick_wf (cfg : MonCfg) (k : Nat) (s : MonState)
    (h : wfSnd s.snd) : wfSnd (monitor_tick cfg k s).snd := by
  rw [wfSnd, monitor_tick_snd]
  by_cases hf : focus_lost cfg.target (cfg.title k)
  · simp [hf, manage_alert_sounds]
  · by_cases hp : s.snd.soundPlaying
    · simp [hf, hp, stop_all_sounds_stages s.snd h]
    · simp only [Bool.not_eq_true] at hp
      simp [hf, hp, h hp]

theorem monSteps_wf (cfg : MonCfg) (s0 : MonState) (h : wfSnd s0.snd) :
    ∀ k, wfSnd (monSteps cfg s0 k).snd := by
  intro k
  induction k with
  | zero => exact h
  | succ k ih =>
    by_cases hg : monGuard cfg k
    · simpa [monSteps, hg] using monitor_tick_wf cfg k _ ih
    · simpa [monSteps, hg] using ih

theorem monSteps_stage_le (cfg : MonCfg) (s0 : MonState) (h : s0.alertStage ≤ 5) :
    ∀ k, (monSteps cfg s0 k).alertStage ≤ 5 := by
  intro k
  induction k with
  | zero => exact h
  | succ k ih =>
    by_cases hg : monGuard cfg k
    · rw [monSteps, if_pos hg, monitor_tick_alertStage]
      by_cases hf : focus_lost cfg.target (cfg.title k)
      · simp only [hf, if_true]
        by_cases hc : (monSteps cfg s0 k).lastFocusLost.getD (cfg.tb k) + 10 ≤ cfg.tb k ∧
            (monSteps cfg s0 k).alertStage < 5
        · rw [if_pos hc]
          omega
        · rw [if_neg hc]
          exact ih
      · simp [hf]
    · rw [monSteps, if_neg hg]
      exact ih

theorem flowLoop_cancelled (cancel : Nat → Bool) (d : Durations) (n k : Nat)
    (h : cancel k = true) : (flowLoop cancel d n k).1 = [] := by
  cases n with
  | zero => rfl
  | succ n => simp [flowLoop, h]

theorem flowLoop_snd_ge (cancel : Nat → Bool) (d : Durations) :
    ∀ n k, k ≤ (flowLoop cancel d n k).2 := by
  intro n
  induction n with
  | zero => intro k; exact le_refl k
  | succ n ih =>
    intro k
    by_cases h0 : cancel k
    · simp [flowLoop, h0]
    · by_cases h2 : cancel (k + 2)
      · simp [flowLoop, h0, h2]
      · have h4 := ih (k + 4)
        have hsnd : (flowLoop cancel d (n + 1) k).2 = (flowLoop cancel d n (k + 4)).2 := by
          simp [flowLoop, h0, h2]
        rw [hsnd]
        omega

theorem flowLoop_starts_sched (cancel : Nat → Bool) (d : Durations)
    (hmono : ∀ i j, i ≤ j → cancel i = true → cancel j = true) :
    ∀ n k, (flowLoop cancel d n k).1 <+: loopSched d n := by
  intro n
  induction n with
  | zero =>
    intro k
    simp [flowLoop, loopSched]
  | succ n ih =>
    intro k
    by_cases h0 : cancel k
    · have hfst : (flowLoop cancel d (n + 1) k).1 = [] := by simp [flowLoop, h0]
      rw [hfst]
      exact ⟨loopSched d (n + 1), rfl⟩
    · by_cases h1 : cancel (k + 1)
      · have h2 : cancel (k + 2) = true := hmono (k + 1) (k + 2) (by omega) h1
        have hfst : (flowLoop cancel d (n + 1) k).1 = [] := by
          simp [flowLoop, h0, h1, h2, start_phase]
        rw [hfst]
        exact ⟨loopSched d (n + 1), rfl⟩
      · by_cases h2 : cancel (k + 2)
        · have hfst : (flowLoop cancel d (n + 1) k).1 = [gamePhase d] := by
            simp [flowLoop, h0, h1, h2, start_phase]
          rw [hfst, loopSched]
          exact ⟨shortStudyPhase d :: loopSched d n, rfl⟩
        · by_cases h3 : cancel (k + 3)
          · have h4 : cancel (k + 4) = true := hmono (k + 3) (k + 4) (by omega) h3
            have hr : (flowLoop cancel d n (k + 4)).1 = [] :=
              flowLoop_cancelled cancel d n (k + 4) h4
            have hfst : (flowLoop cancel d (n + 1) k).1 = [gamePhase d] := by
              simp [flowLoop, h0, h1, h2, h3, start_phase, hr]
            rw [hfst, loopSched]
            exact ⟨shortStudyPhase d :: loopSched d n, rfl⟩
          · obtain ⟨t, ht⟩ := ih (k + 4)
            have hfst : (flowLoop cancel d (n + 1) k).1 =
                gamePhase d :: shortStudyPhase d :: (flowLoop cancel d n (k + 4)).1 := by
              simp [flowLoop, h0, h1, h2, h3, start_phase]
            rw [hfst, loopSched]
            exact ⟨t, by rw [← ht]; simp⟩

theorem flowLoop_full (cancel : Nat → Bool) (d : Durations)
    (hmono : ∀ i j, i ≤ j → cancel i = true → cancel j = true) :
    ∀ n k, cancel ((flowLoop cancel d n k).2) = false →
      (flowLoop cancel d n k).1 = loopSched d n := by
  intro n
  induction n with
  | zero => intro k _; rfl
  | succ n ih =>
    intro k hend
    by_cases h0 : cancel k
    · exfalso
      have hsnd : (flowLoop cancel d (n + 1) k).2 = k + 1 := by simp [flowLoop, h0]
      rw [hsnd] at hend
      rw [hmono k (k + 1) (by omega) h0] at hend
      exact Bool.true_eq_false.mp hend
    · by_cases h2 : cancel (k + 2)
      · exfalso
        have hsnd : (flowLoop cancel d (n + 1) k).2 = k + 3 := by
          simp [flowLoop, h0, h2]
        rw [hsnd] at hend
        rw [hmono (k + 2) (k + 3) (by omega) h2] at hend
        exact Bool.true_eq_false.mp hend
      · have hsnd : (flowLoop cancel d (n + 1) k).2 = (flowLoop cancel d n (k + 4)).2 := by
          simp [flowLoop, h0, h2]
        rw [hsnd] at hend
        have hge := flowLoop_snd_ge cancel d n (k + 4)
        have h1 : cancel (k + 1) = false := by
          by_contra h
          simp only [Bool.not_eq_false] at h
          rw [hmono (k + 1) _ (by omega) h] at hend
          exact Bool.true_eq_false.mp hend
        have h3 : cancel (k + 3) = false := by
          by_contra h
          simp only [Bool.not_eq_false] at h
          rw [hmono (k + 3) _ (by omega) h] at hend
          exact Bool.true_eq_false.mp hend
        have hr := ih (k + 4) hend
        have hfst : (flowLoop cancel d (n + 1) k).1 =
            gamePhase d :: shortStudyPhase d :: (flowLoop cancel d n (k + 4)).1 := by
          simp [flowLoop, h0, h1, h2, h3, start_phase]
        rw [hfst, hr, loopSched]

theorem tq_add_le (cfg : MonCfg) (hmono : ∀ k, cfg.tq k < cfg.tq (k + 1)) :
    ∀ k, cfg.tq 0 + k ≤ cfg.tq k := by
  intro k
  induction k with
  | zero => omega
  | succ k ih =>
    have := hmono k
    omega

/-- Concrete monitor input used for the claims about the focus decision:
target title `StudyApp`, the window query failing on every tick, ticks one
second apart. -/
def cfgC1 : MonCfg :=
  { target := "StudyApp", duration := 5, t0 := 0,
    title := fun _ => none, cancel := fun _ => false,
    tq := fun k => k, tb := fun k => k }

/-- Concrete mid-phase monitor state: alert stage 3 with three escalations
worth of sound channels active. -/
def sC1 : MonState :=
  { alertStage := 3, lastFocusLost := some 0,
    snd := { soundPlaying := true, activeStages := [0, 1, 2, 3] },
    timeRemaining := 5 }

/-- C1 counterexample: a tick whose window query fails (`None` active
title) is handled by the focus-regained branch of line 127 — it resets
the alert stage (here from 3 to 0) and stops the sounds, i.e. unknown
focus is treated as focused, not as lost as the claim states. -/
theorem focus_unknown_treated_as_focused :
    focus_lost "StudyApp" none = false ∧
    (monSteps cfgC1 sC1 1).alertStage = 0 ∧
    (monSteps cfgC1 sC1 1).snd.soundPlaying = false ∧
    sC1.alertStage = 3 := by
  decide

/-- C1 (amended): a tick is handled by the focus-lost branch exactly when
the query yields a nonempty title that does not case-insensitively
contain the target (so `StudyApp - Document1` against target `StudyApp`
counts as focused, Scenario A); a failed query or empty title selects the
focus-regained branch, which resets the alert stage and the focus-lost
timestamp — unknown focus is treated as focused, never as lost. -/
theorem focus_decision_characterization :
    (∀ cfg : MonCfg, ∀ k : Nat, ∀ s : MonState,
      focus_lost cfg.target (cfg.title k) = false →
        (monitor_tick cfg k s).alertStage = 0 ∧
        (monitor_tick cfg k s).lastFocusLost = none) ∧
    (∀ target t : String,
      (focus_lost target (some t) = true ↔ t.isEmpty = false ∧ titleHas t target = false)) ∧
    (∀ target : String, focus_lost target none = false) ∧
    titleHas "StudyApp - Document1" "StudyApp" = true := by
  refine ⟨?_, ?_, fun _ => rfl, by decide⟩
  · intro cfg k s hf
    rw [monitor_tick_alertStage, monitor_tick_lastFocusLost]
    simp [hf]
  · intro target t
    constructor
    · intro h
      simpa [focus_lost] using h
    · intro h
      simp [focus_lost, h.1, h.2]

/-- Closed instance of the C1 amended theorem at the concrete input. -/
theorem focus_decision_witness :
    (monitor_tick cfgC1 0 sC1).alertStage = 0 ∧
    (monitor_tick cfgC1 0 sC1).lastFocusLost = none :=
  focus_decision_characterization.1 cfgC1 0 sC1 (by decide)

/-- Concrete handle state with a tracked game process (pid 7). -/
def procsC2 : ProcState := { gameProcess := some 7, studyProcess := none }

/-- C2 counterexample: with pid 7 already tracked for the game kind, a
successful spawn (pid 8, no existing window) overwrites the tracked
handle and performs no terminate or kill action — the superseded handle
is dropped, not terminated before replacement. -/
theorem superseded_handle_not_terminated :
    (start_application "/usr/bin/mygame" "MyGame" (some false) (some 8) procsC2).1.gameProcess
        = some 8 ∧
    procsC2.gameProcess = some 7 ∧
    ((start_application "/usr/bin/mygame" "MyGame" (some false) (some 8) procsC2).2.filter
        (fun a => match a with
          | ProcAction.terminate _ => true
          | ProcAction.kill _ => true
          | _ => false)) = [] := by
  decide

/-- C2 (amended): at most one process handle per launch kind is tracked
(the two fields `game_process` and `study_process`); when a spawn
succeeds, the new handle is recorded keyed by whether the launch title
contains `game`, overwriting any previously tracked handle of that kind
without terminating it — a superseded handle is dropped unterminated, and
the handle of the other kind is unchanged. -/
theorem spawn_replaces_without_terminating (appPath appTitle : String)
    (w : Option Bool) (pid : Nat) (s : ProcState) (hw : w ≠ some true) :
    (isGameKind appTitle = true →
      (start_application appPath appTitle w (some pid) s).1.gameProcess = some pid ∧
      (start_application appPath appTitle w (some pid) s).1.studyProcess = s.studyProcess) ∧
    (isGameKind appTitle = false →
      (start_application appPath appTitle w (some pid) s).1.studyProcess = some pid ∧
      (start_application appPath appTitle w (some pid) s).1.gameProcess = s.gameProcess) ∧
    (∀ a ∈ (start_application appPath appTitle w (some pid) s).2,
      (∀ q, a ≠ ProcAction.terminate q) ∧ (∀ q, a ≠ ProcAction.kill q)) := by
  have hs : start_application appPath appTitle w (some pid) s =
      if isGameKind appTitle then
        ({ s with gameProcess := some pid }, [ProcAction.spawn (splitPath appPath)])
      else
        ({ s with studyProcess := some pid }, [ProcAction.spawn (splitPath appPath)]) := by
    rcases w with _ | b
    · rfl
    · cases b
      · rfl
      · exact absurd rfl hw
  by_cases hk : isGameKind appTitle
  · rw [hs, if_pos hk]
    refine ⟨fun _ => ⟨rfl, rfl⟩, fun h => absurd h (by simp [hk]), ?_⟩
    intro a ha
    simp only [List.mem_singleton] at ha
    subst ha
    exact ⟨fun q h => ProcAction.noConfusion h, fun q h => ProcAction.noConfusion h⟩
  · rw [hs, if_neg hk]
    refine ⟨fun h => absurd h (by simp [hk]), fun _ => ⟨rfl, rfl⟩, ?_⟩
    intro a ha
    simp only [List.mem_singleton] at ha
    subst ha
    exact ⟨fun q h => ProcAction.noConfusion h, fun q h => ProcAction.noConfusion h⟩

/-- Closed instance of the C2 amended theorem at the concrete input. -/
theorem spawn_replaces_witness :
    (start_application "/usr/bin/mygame" "MyGame" (some false) (some 8) procsC2).1.gameProcess
      = some 8 :=
  (((spawn_replaces_without_terminating "/usr/bin/mygame" "MyGame" (some false) 8 procsC2
    (by decide)).1) (by decide)).1

/-- C3: throughout any `_monitor_focus` run started by `monitor_init`,
`alert_stage` stays in [0,5]; on a focus-lost tick it increments by
exactly one precisely when at least 10 seconds have elapsed since the
recorded focus-lost timestamp and the stage is below 5 (capping at 5),
and in that case the timestamp restarts at the current time, so the
cadence is per continuous focus-loss interval, not cumulative; any
focus-regained tick resets the stage to 0; after the loop has exited the
state no longer changes. -/
theorem alert_stage_invariant (cfg : MonCfg) (sPrev : MonState) (k : Nat) :
    (monSteps cfg (monitor_init cfg sPrev) k).alertStage ≤ 5 ∧
    (monGuard cfg k = false →
      monSteps cfg (monitor_init cfg sPrev) (k + 1) =
        monSteps cfg (monitor_init cfg sPrev) k) ∧
    (monGuard cfg k = true →
      (focus_lost cfg.target (cfg.title k) = false →
        (monSteps cfg (monitor_init cfg sPrev) (k + 1)).alertStage = 0) ∧
      (focus_lost cfg.target (cfg.title k) = true →
        ((monSteps cfg (monitor_init cfg sPrev) (k + 1)).alertStage =
          if (monSteps cfg (monitor_init cfg sPrev) k).lastFocusLost.getD (cfg.tb k) + 10
                ≤ cfg.tb k ∧
              (monSteps cfg (monitor_init cfg sPrev) k).alertStage < 5
          then (monSteps cfg (monitor_init cfg sPrev) k).alertStage + 1
          else (monSteps cfg (monitor_init cfg sPrev) k).alertStage) ∧
        ((monSteps cfg (monitor_init cfg sPrev) k).lastFocusLost.getD (cfg.tb k) + 10
              ≤ cfg.tb k ∧
            (monSteps cfg (monitor_init cfg sPrev) k).alertStage < 5 →
          (monSteps cfg (monitor_init cfg sPrev) (k + 1)).lastFocusLost =
            some (cfg.tb k)))) := by
  refine ⟨monSteps_stage_le cfg _ (by simp [monitor_init]) k, ?_, ?_⟩
  · intro hg
    rw [monSteps, if_neg (by simp [hg])]
  · intro hg
    refine ⟨?_, ?_⟩
    · intro hf
      rw [monSteps, if_pos hg, monitor_tick_alertStage]
      simp [hf]
    · intro hf
      refine ⟨?_, ?_⟩
      · rw [monSteps, if_pos hg, monitor_tick_alertStage]
        simp [hf]
      · intro hc
        rw [monSteps, if_pos hg, monitor_tick_lastFocusLost]
        simp only [hf, if_true]
        rw [if_pos hc]

/-- Concrete monitor input for the C3 witness: the target window stays
focused, so the first tick resets the alert stage to 0. -/
def cfgC3 : MonCfg :=
  { target := "StudyApp", duration := 5, t0 := 0,
    title := fun _ => some "StudyApp - Document1", cancel := fun _ => false,
    tq := fun k => k, tb := fun k => k }

/-- Closed instance of the C3 theorem at a concrete input. -/
theorem alert_stage_invariant_witness :
    (monSteps cfgC3 (monitor_init cfgC3 sC1) 1).alertStage = 0 :=
  ((alert_stage_invariant cfgC3 sC1 0).2.2 (by decide)).1 (by decide)

/-- Concrete sound state with two channels running. -/
def sndC4 : SoundSt := { soundPlaying := true, activeStages := [0, 1] }

/-- C4 counterexample: a sound channel blocked mid-play with 1.0 s of
playback left (10 tenths) is still producing audio when `_stop_all_sounds`
returns — the 0.2 s join times out and the thread map is cleared anyway —
contradicting the claim that no channel is left running after return even
if playback is mid-play. -/
theorem channel_outlives_stop_all :
    channelAliveAfterStopAll 10 = true ∧
    (stop_all_sounds sndC4).activeStages = [] ∧
    (stop_all_sounds sndC4).soundPlaying = false := by
  decide

/-- C4 (amended): `_stop_all_sounds` with `sound_playing` already false is
a no-op; otherwise it clears the flag (signalling every channel loop to
stop), waits at most 0.2 s per channel, and clears the channel map before
returning, so a channel whose current blocking playback has at most 0.2 s
left has stopped by the time it returns, but a channel mid-play with more
than 0.2 s of playback left is still running when it returns. -/
theorem stop_all_sounds_spec (s : SoundSt) (r : Nat) :
    (s.soundPlaying = false → stop_all_sounds s = s) ∧
    (stop_all_sounds s).soundPlaying = false ∧
    (s.soundPlaying = true → (stop_all_sounds s).activeStages = []) ∧
    (r ≤ 2 → channelAliveAfterStopAll r = false) ∧
    (2 < r → channelAliveAfterStopAll r = true) := by
  refine ⟨stop_all_sounds_noop s, stop_all_sounds_playing s, ?_, ?_, ?_⟩
  · intro hp
    simp [stop_all_sounds, hp]
  · intro hr
    simp only [channelAliveAfterStopAll, channelExitTime, joinWait]
    simp [Nat.min_eq_left hr]
  · intro hr
    simp only [channelAliveAfterStopAll, channelExitTime, joinWait]
    simp [Nat.min_eq_right (by omega : 2 ≤ r)]
    omega

/-- Closed instance of the C4 amended theorem at concrete inputs. -/
theorem stop_all_sounds_spec_witness :
    stop_all_sounds { soundPlaying := false, activeStages := [] }
        = { soundPlaying := false, activeStages := [] } ∧
    channelAliveAfterStopAll 1 = false :=
  ⟨(stop_all_sounds_spec { soundPlaying := false, activeStages := [] } 1).1 rfl,
   (stop_all_sounds_spec { soundPlaying := false, activeStages := [] } 1).2.2.2.1
     (by omega)⟩

/-- C5: `start_pomodoro_session` refuses to start a session in exactly two
cases — a session already running, or the required configured `game_path`
being empty (the `Configuration Missing` error) — and starts the worker
otherwise. -/
theorem start_session_rejection_cases (timerRunning : Bool) (gamePath : String) :
    (start_pomodoro_session timerRunning gamePath = StartOutcome.started ↔
      timerRunning = false ∧ gamePath.isEmpty = false) ∧
    (start_pomodoro_session timerRunning gamePath = StartOutcome.alreadyRunning ↔
      timerRunning = true) ∧
    (start_pomodoro_session timerRunning gamePath = StartOutcome.configMissing ↔
      timerRunning = false ∧ gamePath.isEmpty = true) := by
  cases timerRunning
  · by_cases hp : gamePath.isEmpty
    · simp [start_pomodoro_session, hp]
    · simp [start_pomodoro_session, hp]
  · simp [start_pomodoro_session]

/-- Closed instance of the C5 theorem at concrete inputs. -/
theorem start_session_rejection_witness :
    start_pomodoro_session false "/usr/bin/mygame" = StartOutcome.started :=
  (start_session_rejection_cases false "/usr/bin/mygame").1.mpr ⟨rfl, by decide⟩

/-- C6: with no cancellation, `run_pomodoro_flow` runs exactly four
repetitions of distraction-then-short-focus followed by one long-focus
phase and then reports completion; with one-minute durations the total
scheduled focus-watch time is 540 seconds; the cancellation event is
checked before each phase and (being monotone once set) the phases
actually started always form a prefix of the full schedule; a signal set
from the start means no phase starts and no completion is reported. -/
theorem pomodoro_flow_order (cancel : Nat → Bool) (d : Durations)
    (hmono : ∀ i j, i ≤ j → cancel i = true → cancel j = true) :
    (run_pomodoro_flow (fun _ => false) d =
      ([gamePhase d, shortStudyPhase d, gamePhase d, shortStudyPhase d,
        gamePhase d, shortStudyPhase d, gamePhase d, shortStudyPhase d,
        longStudyPhase d], true)) ∧
    ((run_pomodoro_flow (fun _ => false)
        { game := 60, short_study := 60, long_study := 60 }).1.map
          (fun p => p.duration)).sum = 540 ∧
    (run_pomodoro_flow cancel d).1 <+: full_schedule d ∧
    (cancel 0 = true → run_pomodoro_flow cancel d = ([], false)) := by
  refine ⟨rfl, by decide, ?_, ?_⟩
  · by_cases hc : cancel ((flowLoop cancel d 4 0).2)
    · have hfst : (run_pomodoro_flow cancel d).1 = (flowLoop cancel d 4 0).1 := by
        simp [run_pomodoro_flow, hc]
      rw [hfst]
      exact (flowLoop_starts_sched cancel d hmono 4 0).trans ⟨[longStudyPhase d], rfl⟩
    · have hfull := flowLoop_full cancel d hmono 4 0 (by simpa using hc)
      have hfst : (run_pomodoro_flow cancel d).1 =
          loopSched d 4 ++
            start_phase cancel ((flowLoop cancel d 4 0).2 + 1) (longStudyPhase d) := by
        simp [run_pomodoro_flow, hc, hfull]
      rw [hfst]
      by_cases hl : cancel ((flowLoop cancel d 4 0).2 + 1)
      · rw [start_phase, if_pos hl]
        exact ⟨[longStudyPhase d], by simp [full_schedule]⟩
      · rw [start_phase, if_neg hl]
        exact ⟨[], by simp [full_schedule]⟩
  · intro h0
    have h1 := hmono 0 1 (by omega) h0
    have h2 := hmono 0 2 (by omega) h0
    simp [run_pomodoro_flow, flowLoop, h0, h1, h2]

/-- Closed instance of the C6 theorem: a never-set cancellation signal
yields 540 seconds of scheduled focus watching with one-minute durations. -/
theorem pomodoro_flow_witness :
    ((run_pomodoro_flow (fun _ => false)
        { game := 60, short_study := 60, long_study := 60 }).1.map
          (fun p => p.duration)).sum = 540 :=
  (pomodoro_flow_order (fun _ => false)
    { game := 60, short_study := 60, long_study := 60 }
    (fun _ _ _ h => h)).2.1

/-- C7: under the timing of the loop — consecutive guard checks are
strictly increasing (the one-second sleep) and at most `dl` apart (one
tick's length, with line 119's start time at most `dl` before the first
check) — `_monitor_focus` exits its loop within `duration` ticks and at a
wall-clock time at most `t0 + duration + dl`, for every window-title
stream (including one that fails every tick) and every cancellation
stream; and whatever the exit reason, the returned state has passed
through `_stop_all_sounds`: the flag is cleared and no channel is
tracked. -/
theorem watch_terminates_and_cleans (cfg : MonCfg) (sPrev : MonState) (dl : Nat)
    (hmono : ∀ k, cfg.tq k < cfg.tq (k + 1))
    (hdelta : ∀ k, cfg.tq (k + 1) ≤ cfg.tq k + dl)
    (h0 : cfg.t0 ≤ cfg.tq 0) (h0d : cfg.tq 0 ≤ cfg.t0 + dl)
    (hwf : wfSnd sPrev.snd) :
    ∃ k, k ≤ cfg.duration ∧ monGuard cfg k = false ∧
      (∀ j, j < k → monGuard cfg j = true) ∧
      cfg.tq k ≤ cfg.t0 + cfg.duration + dl ∧
      (monitor_result cfg (monitor_init cfg sPrev) k).snd.soundPlaying = false ∧
      (monitor_result cfg (monitor_init cfg sPrev) k).snd.activeStages = [] := by
  have hstop : monGuard cfg cfg.duration = false := by
    have h1 := tq_add_le cfg hmono cfg.duration
    have h2 : ¬(cfg.tq cfg.duration < cfg.t0 + cfg.duration) := by omega
    simp [monGuard, h2]
  have hex : ∃ k, monGuard cfg k = false := ⟨cfg.duration, hstop⟩
  refine ⟨Nat.find hex, Nat.find_min' hex hstop, Nat.find_spec hex, ?_, ?_, ?_, ?_⟩
  · intro j hj
    have := Nat.find_min hex hj
    simpa using this
  · rcases hk : Nat.find hex with _ | m
    · omega
    · have hmlt : m < Nat.find hex := by omega
      have hgm : monGuard cfg m = true := by
        have := Nat.find_min hex hmlt
        simpa using this
      have hql : cfg.tq m < cfg.t0 + cfg.duration := by
        have := hgm
        simp only [monGuard, Bool.and_eq_true, decide_eq_true_eq] at this
        exact this.1
      have := hdelta m
      omega
  · exact stop_all_sounds_playing _
  · refine stop_all_sounds_stages _ ?_
    exact monSteps_wf cfg (monitor_init cfg sPrev) hwf (Nat.find hex)

/-- Concrete monitor input for the C7 witness: two-second duration, the
window query failing on every tick, checks exactly one second apart. -/
def cfgC7 : MonCfg :=
  { target := "StudyApp", duration := 2, t0 := 0,
    title := fun _ => none, cancel := fun _ => false,
    tq := fun k => k, tb := fun k => k }

/-- Concrete prior state for the C7 witness. -/
def sC7 : MonState :=
  { alertStage := 0, lastFocusLost := none,
    snd := { soundPlaying := false, activeStages := [] }, timeRemaining := 0 }

/-- Closed instance of the C7 theorem at a concrete input: the loop exits
after two ticks and the returned state has no sound playing. -/
theorem watch_terminates_witness :
    (monitor_result cfgC7 (monitor_init cfgC7 sC7) 2).snd.soundPlaying = false ∧
    (monitor_result cfgC7 (monitor_init cfgC7 sC7) 2).snd.activeStages = [] := by
  obtain ⟨k, hk, hg, hmin, hb, hs, hst⟩ :=
    watch_terminates_and_cleans cfgC7 sC7 1
      (fun k => Nat.lt_succ_self k) (fun k => Nat.le_refl (k + 1))
      (Nat.zero_le 0) (Nat.zero_le 1) (fun _ => rfl)
  have hk2 : k = 2 := by
    have hk' : k ≤ 2 := hk
    interval_cases k
    · exact absurd hg (by decide)
    · exact absurd hg (by decide)
    · rfl
  rw [hk2] at hs hst
  exact ⟨hs, hst⟩

/-- Concrete monitor input for the C8 counterexample: duration 60 s, the
guard check of the only tick at t = 0 but the body of that tick at
t = 61 (a window query or sound call that ran past the deadline). -/
def cfgC8 : MonCfg :=
  { target := "StudyApp", duration := 60, t0 := 0,
    title := fun _ => none, cancel := fun _ => false,
    tq := fun _ => 0, tb := fun _ => 61 }

/-- Concrete prior state for the C8 theorems. -/
def sC8 : MonState :=
  { alertStage := 0, lastFocusLost := none,
    snd := { soundPlaying := false, activeStages := [] }, timeRemaining := 0 }

/-- C8 counterexample: line 146 computes
`int(duration_seconds - (time.time() - start_time))` with no clamping, so
when the tick body runs past the deadline the published `time_remaining`
is negative (here -1), while `max(0, duration - elapsed)` would be 0. -/
theorem time_remaining_negative :
    (monSteps cfgC8 (monitor_init cfgC8 sC8) 1).timeRemaining = -1 := by
  decide

/-- C8 (amended): the value published on every executed tick is
`duration - elapsed` as a plain integer difference, with no clamping at
zero — it agrees with `max(0, duration - elapsed)` whenever the body of
the tick runs no later than the deadline, but is negative when the
elapsed time at publication exceeds the duration. -/
theorem time_remaining_formula (cfg : MonCfg) (sPrev : MonState) (k : Nat)
    (hg : monGuard cfg k = true) :
    (monSteps cfg (monitor_init cfg sPrev) (k + 1)).timeRemaining =
      (cfg.duration : Int) - ((cfg.tb k : Int) - (cfg.t0 : Int)) ∧
    (cfg.tb k ≤ cfg.t0 + cfg.duration →
      (monSteps cfg (monitor_init cfg sPrev) (k + 1)).timeRemaining =
        max 0 ((cfg.duration : Int) - ((cfg.tb k : Int) - (cfg.t0 : Int)))) := by
  have heq : (monSteps cfg (monitor_init cfg sPrev) (k + 1)).timeRemaining =
      (cfg.duration : Int) - ((cfg.tb k : Int) - (cfg.t0 : Int)) := by
    rw [monSteps, if_pos hg, monitor_tick_timeRemaining]
  refine ⟨heq, fun hle => ?_⟩
  rw [heq]
  have : (0 : Int) ≤ (cfg.duration : Int) - ((cfg.tb k : Int) - (cfg.t0 : Int)) := by
    omega
  omega

/-- Concrete monitor input for the C8 witness: duration 60 s with the
first tick body at t = 30. -/
def cfgC8w : MonCfg :=
  { target := "StudyApp", duration := 60, t0 := 0,
    title := fun _ => none, cancel := fun _ => false,
    tq := fun _ => 0, tb := fun _ => 30 }

/-- Closed instance of the C8 amended theorem at a concrete input. -/
theorem time_remaining_witness :
    (monSteps cfgC8w (monitor_init cfgC8w sC8) 1).timeRemaining = 30 := by
  have h := (time_remaining_formula cfgC8w sC8 0 (by decide)).1
  rw [h]
  decide

/-- C9: `_monitor_focus` begins every call by resetting the alert stage to
0 and clearing the focus-lost timestamp (and setting the displayed
remaining time to the phase duration), whatever state the previous phase
left behind. -/
theorem monitor_entry_resets_alert_state (cfg : MonCfg) (sPrev : MonState) :
    (monitor_init cfg sPrev).alertStage = 0 ∧
    (monitor_init cfg sPrev).lastFocusLost = none ∧
    (monitor_init cfg sPrev).timeRemaining = (cfg.duration : Int) ∧
    monSteps cfg (monitor_init cfg sPrev) 0 = monitor_init cfg sPrev :=
  ⟨rfl, rfl, rfl, rfl⟩

/-- C10: `_terminate_process` returns `None` on every path; called on a
`None` handle it is a no-op performing no process action; hence
`stop_pomodoro_session` is safe when nothing was ever spawned, and when
its termination path runs (session running, stop confirmed) both tracked
handles are `None` afterwards — as they also are when stop early-returns
with no handle ever recorded. -/
theorem terminate_and_stop_clear_handles (p : Option Nat)
    (out outG outS : TermOutcome) (confirm : Bool) (s : CtrlState) :
    (terminate_process p out).1 = none ∧
    terminate_process none out = (none, []) ∧
    (s.timerRunning = true → confirm = true →
      (stop_pomodoro_session confirm outG outS s).procs.gameProcess = none ∧
      (stop_pomodoro_session confirm outG outS s).procs.studyProcess = none) ∧
    (s.procs.gameProcess = none → s.procs.studyProcess = none →
      (stop_pomodoro_session confirm outG outS s).procs.gameProcess = none ∧
      (stop_pomodoro_session confirm outG outS s).procs.studyProcess = none) := by
  have hterm : ∀ (q : Option Nat) (o : TermOutcome), (terminate_process q o).1 = none := by
    intro q o
    cases q <;> cases o <;> rfl
  have hbody : s.timerRunning = true → confirm = true →
      (stop_pomodoro_session confirm outG outS s).procs.gameProcess = none ∧
      (stop_pomodoro_session confirm outG outS s).procs.studyProcess = none := by
    intro ht hc
    rw [stop_pomodoro_session, if_neg (by simp [ht]), if_neg (by simp [hc])]
    exact ⟨hterm _ _, hterm _ _⟩
  refine ⟨hterm p out, by cases out <;> rfl, hbody, ?_⟩
  · intro hg hs
    by_cases ht : s.timerRunning
    · by_cases hc : confirm
      · exact hbody ht hc
      · rw [stop_pomodoro_session, if_neg (by simp [ht]),
          if_pos (by simp [Bool.not_eq_true] at hc; simp [hc])]
        exact ⟨hg, hs⟩
    · rw [stop_pomodoro_session,
        if_pos (by simp [Bool.not_eq_true] at ht; simp [ht])]
      exact ⟨hg, hs⟩

/-- Concrete controller state for the C10 witness: a running session with
both a game and a study process tracked. -/
def ctrlC10 : CtrlState :=
  { timerRunning := true, stopMonitoring := false,
    snd := { soundPlaying := false, activeStages := [] },
    procs := { gameProcess := some 3, studyProcess := some 4 } }

/-- Closed instance of the C10 theorem at a concrete input. -/
theorem terminate_and_stop_witness :
    (stop_pomodoro_session true TermOutcome.ok TermOutcome.timedOut ctrlC10).procs.gameProcess
        = none ∧
    (stop_pomodoro_session true TermOutcome.ok TermOutcome.timedOut ctrlC10).procs.studyProcess
        = none :=
  (terminate_and_stop_clear_handles (some 3) TermOutcome.ok TermOutcome.ok
    TermOutcome.timedOut true ctrlC10).2.2.1 rfl rfl

end Moporodo
